import Mathlib

/-!
Shallow embedding of the Cognito user-pool resource handler
(src/aws/resource_aws_cognito_user_pool.go).

The handler exposes Create / Read / Update / Delete over a remote client
offering CreateUserPool, DescribeUserPool, UpdateUserPool, DeleteUserPool.
Each operation is split into a pure request builder (mirroring the
assembly of the SDK input struct from the ResourceData) and a
remote-result handler (mirroring the error treatment of the remote call).
Terraform's ResourceData accessors are modelled as follows:
  GetOk(field)     = the field's effective value, together with the flag
                     that the value is not the zero value of its type
                     (empty string / empty list / empty map);
  HasChange(field) = the desired value differs from the previous value;
  configs[0]       = the unguarded Go index access, which crashes
                     (runtime panic, index out of range) on an empty list.
-/

set_option autoImplicit false

namespace Cognito

/-- Go error values as the handler sees them: an AWS service error carrying a
code and message (awserr.Error), a plain error built by errors.New, or an
error wrapped by errwrap.Wrapf, holding the human-readable message followed
by the underlying cause. -/
inductive GoError where
  | awsErr (code msg : String)
  | goErr (msg : String)
  | wrapped (pfx : String) (cause : GoError)
  deriving DecidableEq, Repr

/-- Result of running a Go code path: a normal value, an error return, or a
runtime crash (Go panic, e.g. an index-out-of-range access). -/
inductive Outcome (α : Type) where
  | ok (a : α)
  | err (e : GoError)
  | crash
  deriving DecidableEq, Repr

/-- Predicate selecting the crash outcome. -/
def outcomeIsCrash {α : Type} : Outcome α → Bool
  | Outcome.crash => true
  | _ => false

/-- Predicate selecting the ok outcome. -/
def outcomeIsOk {α : Type} : Outcome α → Bool
  | Outcome.ok _ => true
  | _ => false

/-- Predicate selecting an error outcome produced by errors.New, the shape
the handler uses for locally detected malformed configuration blocks
(the spec's ConfigurationShapeError). -/
def isCfgShapeErr {α : Type} : Outcome α → Bool
  | Outcome.err (GoError.goErr _) => true
  | _ => false

/-- An element of a Terraform block list ([]interface\x7b\x7d) as the Go code
sees it: a nil interface value (the type assertion .(map[string]interface\x7b\x7d)
reports ok = false), a typed nil map (the assertion succeeds and yields nil),
or an actual configuration map. -/
inductive Elem (α : Type) where
  | nilIface : Elem α
  | nilMap : Elem α
  | val (m : α) : Elem α
  deriving DecidableEq, Repr

/-- Contents of one email_configuration block element. A key maps to none
when absent from the map and to some s when present with string value s. -/
structure EmailConfigMap where
  reply_to_email_address : Option String := none
  source_arn : Option String := none
  deriving DecidableEq, Repr

/-- Contents of one sms_configuration block element. sns_caller_arn is
required by the schema, so the key is always present. -/
structure SmsConfigMap where
  external_id : Option String := none
  sns_caller_arn : String
  deriving DecidableEq, Repr

/-- Effective values of the ResourceData for this resource, after the schema
has applied defaults: omitted strings are the empty string (except
mfa_configuration, whose schema default is applied by resolveMfaDefault),
omitted lists and maps are empty. -/
structure ResourceConfig where
  name : String
  alias_attributes : List String := []
  auto_verified_attributes : List String := []
  email_configuration : List (Elem EmailConfigMap) := []
  email_verification_subject : String := ""
  email_verification_message : String := ""
  mfa_configuration : String := ""
  sms_authentication_message : String := ""
  sms_configuration : List (Elem SmsConfigMap) := []
  sms_verification_message : String := ""
  tags : List (String × String) := []
  deriving DecidableEq, Repr

/-- SDK cognitoidentityprovider.EmailConfigurationType. -/
structure EmailConfigurationType where
  ReplyToEmailAddress : Option String := none
  SourceArn : Option String := none
  deriving DecidableEq, Repr

/-- SDK cognitoidentityprovider.SmsConfigurationType. -/
structure SmsConfigurationType where
  ExternalId : Option String := none
  SnsCallerArn : String
  deriving DecidableEq, Repr

/-- SDK cognitoidentityprovider.CreateUserPoolInput, restricted to the fields
this handler populates. A none field is absent from the request. -/
structure CreateUserPoolInput where
  PoolName : String
  AliasAttributes : Option (List String) := none
  AutoVerifiedAttributes : Option (List String) := none
  EmailConfiguration : Option EmailConfigurationType := none
  EmailVerificationSubject : Option String := none
  EmailVerificationMessage : Option String := none
  MfaConfiguration : Option String := none
  SmsAuthenticationMessage : Option String := none
  SmsConfiguration : Option SmsConfigurationType := none
  SmsVerificationMessage : Option String := none
  UserPoolTags : Option (List (String × String)) := none
  deriving DecidableEq, Repr

/-- SDK cognitoidentityprovider.UpdateUserPoolInput, restricted to the fields
this handler populates. The type carries no alias-attribute field: the
handler never places alias attributes in an update request. A none field is
absent from the request. -/
structure UpdateUserPoolInput where
  UserPoolId : String
  AutoVerifiedAttributes : Option (List String) := none
  EmailConfiguration : Option EmailConfigurationType := none
  EmailVerificationSubject : Option String := none
  EmailVerificationMessage : Option String := none
  MfaConfiguration : Option String := none
  SmsAuthenticationMessage : Option String := none
  SmsConfiguration : Option SmsConfigurationType := none
  SmsVerificationMessage : Option String := none
  UserPoolTags : Option (List (String × String)) := none
  deriving DecidableEq, Repr

/-- SDK cognitoidentityprovider.DescribeUserPoolInput. -/
structure DescribeUserPoolInput where
  UserPoolId : String
  deriving DecidableEq, Repr

/-- SDK cognitoidentityprovider.DeleteUserPoolInput. -/
structure DeleteUserPoolInput where
  UserPoolId : String
  deriving DecidableEq, Repr

/-- Remote user-pool record returned inside a DescribeUserPool response
(resp.UserPool), restricted to the fields Read consumes. A none field is a
nil pointer / nil slice in the response. -/
structure UserPool where
  Id : String
  AliasAttributes : Option (List String) := none
  AutoVerifiedAttributes : Option (List String) := none
  EmailVerificationSubject : Option String := none
  EmailVerificationMessage : Option String := none
  MfaConfiguration : Option String := none
  SmsVerificationMessage : Option String := none
  SmsAuthenticationMessage : Option String := none
  EmailConfiguration : Option EmailConfigurationType := none
  SmsConfiguration : Option SmsConfigurationType := none
  UserPoolTags : List (String × String) := []
  deriving DecidableEq, Repr

/-- Local Terraform state for one user-pool resource: the tracked identifier
(d.Id(), cleared by d.SetId to signal absence) plus the stored value of every
schema field. -/
structure LocalState where
  id : String
  alias_attributes : List String := []
  auto_verified_attributes : List String := []
  email_configuration : List (Elem EmailConfigMap) := []
  email_verification_subject : String := ""
  email_verification_message : String := ""
  mfa_configuration : String := ""
  sms_authentication_message : String := ""
  sms_configuration : List (Elem SmsConfigMap) := []
  sms_verification_message : String := ""
  tags : List (String × String) := []
  deriving DecidableEq, Repr

/-- Modelled from the spec: helper expandStringList, defined elsewhere in
this repository (not under src/), converts a local string list to the SDK
string list one-to-one ("a direct, mostly one-to-one translation"). -/
def expandStringList (l : List String) : List String := l

/-- Modelled from the spec: helper flattenStringList, defined elsewhere in
this repository (not under src/), converts an SDK string list to the local
string list one-to-one. -/
def flattenStringList (l : List String) : List String := l

/-- Modelled from the spec: helper tagsFromMapGeneric, defined elsewhere in
this repository (not under src/), converts the local tag map to the SDK tag
map one-to-one. -/
def tagsFromMapGeneric (t : List (String × String)) : List (String × String) := t

/-- Modelled from the spec: helper tagsToMapGeneric, defined elsewhere in
this repository (not under src/), converts the SDK tag map to the local tag
map one-to-one. -/
def tagsToMapGeneric (t : List (String × String)) : List (String × String) := t

/-- Modelled from the spec: helper flattenCognitoUserPoolEmailConfiguration,
defined elsewhere in this repository (not under src/). Per the spec, fields
absent from the remote response are treated as unset locally: an absent
remote block flattens to the empty block list, a present block to a
one-element block list mirroring its fields. -/
def flattenCognitoUserPoolEmailConfiguration :
    Option EmailConfigurationType → List (Elem EmailConfigMap)
  | none => []
  | some c =>
      [Elem.val { reply_to_email_address := c.ReplyToEmailAddress
                  source_arn := c.SourceArn }]

/-- Modelled from the spec: helper flattenCognitoUserPoolSmsConfiguration,
defined elsewhere in this repository (not under src/). Same shape as the
email flattening: absent remote block means empty local block list. -/
def flattenCognitoUserPoolSmsConfiguration :
    Option SmsConfigurationType → List (Elem SmsConfigMap)
  | none => []
  | some c =>
      [Elem.val { external_id := c.ExternalId
                  sns_caller_arn := c.SnsCallerArn }]

/-- Map lookup guard of the source: the key is present and its string value
is non-empty (if v, ok := config[k]; ok and v != ""). -/
def nonEmptyString : Option String → Option String
  | some v => if v = "" then none else some v
  | none => none

/-- Assembly of an SDK EmailConfigurationType from one block element
(lines 148-160 and 296-308 of the source). -/
def expandEmailConfig (config : EmailConfigMap) : EmailConfigurationType :=
  { ReplyToEmailAddress := nonEmptyString config.reply_to_email_address
    SourceArn := nonEmptyString config.source_arn }

/-- Assembly of an SDK SmsConfigurationType from one block element
(lines 187-197 and 335-345 of the source). sns_caller_arn is read without a
non-empty guard; external_id is guarded like the email fields. -/
def expandSmsConfig (config : SmsConfigMap) : SmsConfigurationType :=
  { ExternalId := nonEmptyString config.external_id
    SnsCallerArn := config.sns_caller_arn }

/-- Shared shape of the block handling in Create and Update: the unguarded
first-element access configs[0] (a Go runtime panic on an empty list), the
comma-ok type assertion to a map (ok = false on a nil interface element,
answered with errors.New errMsg), the config != nil test (a typed nil map is
silently skipped), and otherwise the expansion of the block element. -/
def blockFirstConfig {α β : Type} (expand : α → β) (errMsg : String)
    (configs : List (Elem α)) : Outcome (Option β) :=
  match configs with
  | [] => Outcome.crash
  | e :: _ =>
    match e with
    | Elem.nilIface => Outcome.err (GoError.goErr errMsg)
    | Elem.nilMap => Outcome.ok none
    | Elem.val m => Outcome.ok (some (expand m))

/-- Email block handling with the source's error text (lines 141-160). -/
def emailBlockStep (configs : List (Elem EmailConfigMap)) :
    Outcome (Option EmailConfigurationType) :=
  blockFirstConfig expandEmailConfig "email_configuration is <nil>" configs

/-- Sms block handling with the source's error text (lines 180-197). -/
def smsBlockStep (configs : List (Elem SmsConfigMap)) :
    Outcome (Option SmsConfigurationType) :=
  blockFirstConfig expandSmsConfig "sms_configuration is <nil>" configs

/-- Email block handling in Create (lines 140-161): entered only when
GetOk("email_configuration") reports a non-zero (non-empty) list. -/
def createEmailStep (configs : List (Elem EmailConfigMap)) :
    Outcome (Option EmailConfigurationType) :=
  if configs = [] then Outcome.ok none else emailBlockStep configs

/-- Sms block handling in Create (lines 179-198): entered only when
GetOk("sms_configuration") reports a non-zero (non-empty) list. -/
def createSmsStep (configs : List (Elem SmsConfigMap)) :
    Outcome (Option SmsConfigurationType) :=
  if configs = [] then Outcome.ok none else smsBlockStep configs

/-- Email block handling in Update (lines 288-309): entered only when
HasChange("email_configuration") holds, that is when the desired block list
differs from the previous one; the accessed list is the desired one. -/
def updateEmailStep (d p : ResourceConfig) :
    Outcome (Option EmailConfigurationType) :=
  if d.email_configuration = p.email_configuration then Outcome.ok none
  else emailBlockStep d.email_configuration

/-- Sms block handling in Update (lines 327-346): entered only when
HasChange("sms_configuration") holds. -/
def updateSmsStep (d p : ResourceConfig) :
    Outcome (Option SmsConfigurationType) :=
  if d.sms_configuration = p.sms_configuration then Outcome.ok none
  else smsBlockStep d.sms_configuration

/-- Assembly of the CreateUserPoolInput fields (lines 128-206): PoolName is
always set; every other field is set only when GetOk reports a non-zero
value; the block fields carry the result of the block steps. -/
def assembleCreate (d : ResourceConfig) (ec : Option EmailConfigurationType)
    (sc : Option SmsConfigurationType) : CreateUserPoolInput :=
  { PoolName := d.name
    AliasAttributes :=
      if d.alias_attributes = [] then none
      else some (expandStringList d.alias_attributes)
    AutoVerifiedAttributes :=
      if d.auto_verified_attributes = [] then none
      else some (expandStringList d.auto_verified_attributes)
    EmailConfiguration := ec
    EmailVerificationSubject :=
      if d.email_verification_subject = "" then none
      else some d.email_verification_subject
    EmailVerificationMessage :=
      if d.email_verification_message = "" then none
      else some d.email_verification_message
    MfaConfiguration :=
      if d.mfa_configuration = "" then none
      else some d.mfa_configuration
    SmsAuthenticationMessage :=
      if d.sms_authentication_message = "" then none
      else some d.sms_authentication_message
    SmsConfiguration := sc
    SmsVerificationMessage :=
      if d.sms_verification_message = "" then none
      else some d.sms_verification_message
    UserPoolTags :=
      if d.tags = [] then none
      else some (tagsFromMapGeneric d.tags) }

/-- Request assembly of resourceAwsCognitoUserPoolCreate (lines 128-207),
up to the point where conn.CreateUserPool is called. The email block is
examined before the sms block, as in the source, so with both malformed the
email error is the one returned. -/
def buildCreateParams (d : ResourceConfig) : Outcome CreateUserPoolInput :=
  match createEmailStep d.email_configuration with
  | Outcome.crash => Outcome.crash
  | Outcome.err e => Outcome.err e
  | Outcome.ok ec =>
    match createSmsStep d.sms_configuration with
    | Outcome.crash => Outcome.crash
    | Outcome.err e => Outcome.err e
    | Outcome.ok sc => Outcome.ok (assembleCreate d ec sc)

/-- Assembly of the UpdateUserPoolInput fields (lines 278-354): UserPoolId
is always set to the operation target; every other field is set only when
HasChange holds for it; the block fields carry the result of the block
steps. No alias-attribute field exists on the request (line 282: update of
AliasAttributes is not handled). -/
def assembleUpdate (poolId : String) (d p : ResourceConfig)
    (ec : Option EmailConfigurationType) (sc : Option SmsConfigurationType) :
    UpdateUserPoolInput :=
  { UserPoolId := poolId
    AutoVerifiedAttributes :=
      if d.auto_verified_attributes = p.auto_verified_attributes then none
      else some (expandStringList d.auto_verified_attributes)
    EmailConfiguration := ec
    EmailVerificationSubject :=
      if d.email_verification_subject = p.email_verification_subject then none
      else some d.email_verification_subject
    EmailVerificationMessage :=
      if d.email_verification_message = p.email_verification_message then none
      else some d.email_verification_message
    MfaConfiguration :=
      if d.mfa_configuration = p.mfa_configuration then none
      else some d.mfa_configuration
    SmsAuthenticationMessage :=
      if d.sms_authentication_message = p.sms_authentication_message then none
      else some d.sms_authentication_message
    SmsConfiguration := sc
    SmsVerificationMessage :=
      if d.sms_verification_message = p.sms_verification_message then none
      else some d.sms_verification_message
    UserPoolTags :=
      if d.tags = p.tags then none
      else some (tagsFromMapGeneric d.tags) }

/-- Request assembly of resourceAwsCognitoUserPoolUpdate (lines 278-356),
up to the point where conn.UpdateUserPool is called, from the target
identifier d.Id(), the desired configuration d and the previous
configuration p. The email block is examined before the sms block. -/
def buildUpdateParams (poolId : String) (d p : ResourceConfig) :
    Outcome UpdateUserPoolInput :=
  match updateEmailStep d p with
  | Outcome.crash => Outcome.crash
  | Outcome.err e => Outcome.err e
  | Outcome.ok ec =>
    match updateSmsStep d p with
    | Outcome.crash => Outcome.crash
    | Outcome.err e => Outcome.err e
    | Outcome.ok sc => Outcome.ok (assembleUpdate poolId d p ec sc)

/-- CreateUserPool requests dispatched by Create on configuration d: the one
built request when assembly succeeds, none when assembly fails first. -/
def userPoolCreateCalls (d : ResourceConfig) : List CreateUserPoolInput :=
  match buildCreateParams d with
  | Outcome.ok q => [q]
  | _ => []

/-- UpdateUserPool requests dispatched by Update on (identifier, desired,
previous): the one built request when assembly succeeds, none when assembly
fails first. -/
def userPoolUpdateCalls (poolId : String) (d p : ResourceConfig) :
    List UpdateUserPoolInput :=
  match buildUpdateParams poolId d p with
  | Outcome.ok q => [q]
  | _ => []

/-- Treatment of the conn.CreateUserPool result (lines 209-215): a remote
failure is wrapped with the creating message; on success the returned pool
identifier is stored (d.SetId). -/
def createHandleRemote (r : Except GoError String) : Outcome String :=
  match r with
  | Except.error e =>
      Outcome.err (GoError.wrapped "Error creating Cognito User Pool: " e)
  | Except.ok poolId => Outcome.ok poolId

/-- Treatment of the conn.UpdateUserPool result (lines 358-361): a remote
failure is wrapped with the updating message. -/
def updateHandleRemote (r : Except GoError Unit) : Outcome Unit :=
  match r with
  | Except.error e =>
      Outcome.err (GoError.wrapped "Error updating Cognito User pool: " e)
  | Except.ok _ => Outcome.ok ()

/-- Not-found test of Read (line 232): the error is an awserr.Error whose
code is ResourceNotFoundException. A wrapped error does not satisfy the
awserr.Error type assertion. -/
def isNotFoundErr : GoError → Bool
  | GoError.awsErr code _ => code == "ResourceNotFoundException"
  | _ => false

/-- resourceAwsCognitoUserPoolRead (lines 220-273): issues DescribeUserPool
on the tracked identifier. A not-found failure clears the identifier and is
no error; any other failure is returned unmodified. On success the seven
optional scalar fields are written only when the response carries a value
for them, while email_configuration, sms_configuration and tags are written
unconditionally from the response. -/
def resourceAwsCognitoUserPoolRead (s : LocalState)
    (conn : DescribeUserPoolInput → Except GoError UserPool) :
    Except GoError LocalState :=
  match conn { UserPoolId := s.id } with
  | Except.error e =>
    if isNotFoundErr e then Except.ok { s with id := "" }
    else Except.error e
  | Except.ok up =>
    let s1 := match up.AliasAttributes with
      | some v => { s with alias_attributes := flattenStringList v }
      | none => s
    let s2 := match up.AutoVerifiedAttributes with
      | some v => { s1 with auto_verified_attributes := flattenStringList v }
      | none => s1
    let s3 := match up.EmailVerificationSubject with
      | some v => { s2 with email_verification_subject := v }
      | none => s2
    let s4 := match up.EmailVerificationMessage with
      | some v => { s3 with email_verification_message := v }
      | none => s3
    let s5 := match up.MfaConfiguration with
      | some v => { s4 with mfa_configuration := v }
      | none => s4
    let s6 := match up.SmsVerificationMessage with
      | some v => { s5 with sms_verification_message := v }
      | none => s5
    let s7 := match up.SmsAuthenticationMessage with
      | some v => { s6 with sms_authentication_message := v }
      | none => s6
    Except.ok { s7 with
      email_configuration :=
        flattenCognitoUserPoolEmailConfiguration up.EmailConfiguration
      sms_configuration :=
        flattenCognitoUserPoolSmsConfiguration up.SmsConfiguration
      tags := tagsToMapGeneric up.UserPoolTags }

/-- resourceAwsCognitoUserPoolDelete (lines 366-382): issues DeleteUserPool
on the tracked identifier and wraps any remote failure with the deleting
message. -/
def resourceAwsCognitoUserPoolDelete (poolId : String)
    (conn : DeleteUserPoolInput → Except GoError Unit) : Outcome Unit :=
  match conn { UserPoolId := poolId } with
  | Except.error e =>
      Outcome.err (GoError.wrapped "Error deleting user pool: " e)
  | Except.ok _ => Outcome.ok ()

/-- SDK constant cognitoidentityprovider.UserPoolMfaTypeOff, the schema
default for mfa_configuration (line 77). -/
def UserPoolMfaTypeOff : String := "OFF"

/-- Application of the schema default for mfa_configuration (lines 74-79):
an omitted value resolves to the off mode, a supplied value to itself. -/
def resolveMfaDefault : Option String → String
  | none => UserPoolMfaTypeOff
  | some v => v

/-- Well-formedness of one block element in the sense of the spec's data
model: an actual configuration map, neither a nil interface nor a typed nil
map. -/
def elemIsVal {α : Type} : Elem α → Bool
  | Elem.val _ => true
  | _ => false

/-- Well-formedness of a configuration in the sense of the spec's data
model: every present block element of email_configuration and
sms_configuration is an actual configuration map. -/
def wellFormedConfig (d : ResourceConfig) : Bool :=
  d.email_configuration.all elemIsVal && d.sms_configuration.all elemIsVal

/-- Specification-side description of a successful Read, following the
spec's words for comparison with the source-side definition: each optional
scalar field takes the response value when one is carried and keeps the
previously known local value otherwise, while the two configuration blocks
and the tags are replaced by the flattening of the response
unconditionally, and the identifier is kept. -/
def specReadMerge (s : LocalState) (up : UserPool) : LocalState :=
  { s with
    alias_attributes :=
      (up.AliasAttributes.map flattenStringList).getD s.alias_attributes
    auto_verified_attributes :=
      (up.AutoVerifiedAttributes.map flattenStringList).getD
        s.auto_verified_attributes
    email_verification_subject :=
      up.EmailVerificationSubject.getD s.email_verification_subject
    email_verification_message :=
      up.EmailVerificationMessage.getD s.email_verification_message
    mfa_configuration := up.MfaConfiguration.getD s.mfa_configuration
    sms_verification_message :=
      up.SmsVerificationMessage.getD s.sms_verification_message
    sms_authentication_message :=
      up.SmsAuthenticationMessage.getD s.sms_authentication_message
    email_configuration :=
      flattenCognitoUserPoolEmailConfiguration up.EmailConfiguration
    sms_configuration :=
      flattenCognitoUserPoolSmsConfiguration up.SmsConfiguration
    tags := tagsToMapGeneric up.UserPoolTags }

/-- Claim-side description of the update request: it carries the target
identifier, and a payload field of the UpdateUserPool request is present
exactly when the desired value of that field differs from the previous
value. -/
def updateDiffSpec (poolId : String) (d p : ResourceConfig)
    (u : UpdateUserPoolInput) : Prop :=
  u.UserPoolId = poolId
  ∧ (u.AutoVerifiedAttributes.isSome = true
      ↔ d.auto_verified_attributes ≠ p.auto_verified_attributes)
  ∧ (u.EmailConfiguration.isSome = true
      ↔ d.email_configuration ≠ p.email_configuration)
  ∧ (u.EmailVerificationSubject.isSome = true
      ↔ d.email_verification_subject ≠ p.email_verification_subject)
  ∧ (u.EmailVerificationMessage.isSome = true
      ↔ d.email_verification_message ≠ p.email_verification_message)
  ∧ (u.MfaConfiguration.isSome = true
      ↔ d.mfa_configuration ≠ p.mfa_configuration)
  ∧ (u.SmsAuthenticationMessage.isSome = true
      ↔ d.sms_authentication_message ≠ p.sms_authentication_message)
  ∧ (u.SmsConfiguration.isSome = true
      ↔ d.sms_configuration ≠ p.sms_configuration)
  ∧ (u.SmsVerificationMessage.isSome = true
      ↔ d.sms_verification_message ≠ p.sms_verification_message)
  ∧ (u.UserPoolTags.isSome = true ↔ d.tags ≠ p.tags)

/-- Concrete configuration whose email_configuration block is present with
a nil first element. -/
def c2cfg : ResourceConfig :=
  { name := "pool", email_configuration := [Elem.nilIface] }

/-- Concrete configuration with no blocks, used as a previous state. -/
def c2prev : ResourceConfig := { name := "pool" }

/-- Concrete desired configuration for the update diff: a changed
auto-verified list, a changed email block and a changed verification
subject. -/
def c3desired : ResourceConfig :=
  { name := "pool"
    auto_verified_attributes := ["email"]
    email_configuration :=
      [Elem.val { reply_to_email_address := some "reply@example.com" }]
    email_verification_subject := "subject-2" }

/-- Concrete previous configuration for the update diff. -/
def c3previous : ResourceConfig := { name := "pool" }

/-- Update request built from c3desired against c3previous. -/
def c3request : UpdateUserPoolInput :=
  { UserPoolId := "p1"
    AutoVerifiedAttributes := some ["email"]
    EmailConfiguration :=
      some { ReplyToEmailAddress := some "reply@example.com" }
    EmailVerificationSubject := some "subject-2" }

/-- Concrete local state with previously known scalar values. -/
def c4state : LocalState :=
  { id := "p1"
    email_verification_subject := "old-subject"
    mfa_configuration := "ON" }

/-- Concrete response carrying a value for the verification subject only. -/
def c4resp : UserPool := { Id := "p1", EmailVerificationSubject := some "new-subject" }

/-- Local state after reading c4resp over c4state: the subject is replaced,
the mfa mode is kept. -/
def c4out : LocalState :=
  { id := "p1"
    email_verification_subject := "new-subject"
    mfa_configuration := "ON" }

/-- Concrete configuration for the mfa default: mfa_configuration resolved
from an omitted input. -/
def c7cfg : ResourceConfig :=
  { name := "pool", mfa_configuration := resolveMfaDefault none }

/-- Create request built from c7cfg. -/
def c7req : CreateUserPoolInput :=
  { PoolName := "pool", MfaConfiguration := some "OFF" }

/-- Concrete local state tracking the identifier p1. -/
def c8state : LocalState := { id := "p1" }

/-- Concrete local state with a previously known email block and tags. -/
def c9s1 : LocalState :=
  { id := "p1"
    email_configuration := [Elem.val {}]
    tags := [("k", "v")] }

/-- Concrete local state with empty blocks. -/
def c9s2 : LocalState := { id := "p2" }

/-- Concrete response carrying no block values and no tags. -/
def c9resp : UserPool := { Id := "p1" }

/-- Local state after reading c9resp over c9s1: blocks and tags cleared. -/
def c9t1 : LocalState := { id := "p1" }

/-- Local state after reading c9resp over c9s2. -/
def c9t2 : LocalState := { id := "p2" }

/-- Concrete desired configuration whose email block list is empty. -/
def c10desired : ResourceConfig := { name := "pool" }

/-- Concrete previous configuration whose email block list is non-empty, so
that HasChange("email_configuration") holds against c10desired. -/
def c10previous : ResourceConfig :=
  { name := "pool", email_configuration := [Elem.val {}] }

/-- Refinement of a successful Read by the specification-side merge: the
sequential guarded writes of the source compute exactly the field-wise
merge. -/
theorem read_ok_eq (s : LocalState) (up : UserPool) :
    resourceAwsCognitoUserPoolRead s (fun _ => Except.ok up)
      = Except.ok (specReadMerge s up) := by
  obtain ⟨i, a1, a2, a3, a4, a5, a6, a7, a8, a9, a10⟩ := up
  cases a1 <;> cases a2 <;> cases a3 <;> cases a4 <;> cases a5 <;>
    cases a6 <;> cases a7 <;> rfl

/-- Block handling never crashes on a list with a first element. -/
theorem blockFirstConfig_cons_ne_crash {α β : Type} (expand : α → β)
    (errMsg : String) (e : Elem α) (t : List (Elem α)) :
    outcomeIsCrash (blockFirstConfig expand errMsg (e :: t)) = false := by
  cases e <;> rfl

/-- An error outcome of the block handling is always the errors.New value
carrying the handler's message. -/
theorem blockFirstConfig_err_shape {α β : Type} (expand : α → β)
    (errMsg : String) (configs : List (Elem α)) (e : GoError)
    (h : blockFirstConfig expand errMsg configs = Outcome.err e) :
    e = GoError.goErr errMsg := by
  cases configs with
  | nil => exact absurd h (by simp [blockFirstConfig])
  | cons x t =>
    cases x <;> simp [blockFirstConfig] at h
    exact h.symm

/-- On a list whose first element is a nil interface the block handling
returns the errors.New value. -/
theorem blockFirstConfig_nilIface {α β : Type} (expand : α → β)
    (errMsg : String) (configs : List (Elem α))
    (h : configs.head? = some Elem.nilIface) :
    blockFirstConfig expand errMsg configs
      = Outcome.err (GoError.goErr errMsg) := by
  cases configs with
  | nil => simp at h
  | cons x t =>
    simp at h
    subst h
    rfl

/-- On a list of actual configuration maps a successful block handling
always yields a present block value. -/
theorem blockFirstConfig_ok_of_wf {α β : Type} (expand : α → β)
    (errMsg : String) (configs : List (Elem α)) (ob : Option β)
    (hwf : configs.all elemIsVal = true)
    (h : blockFirstConfig expand errMsg configs = Outcome.ok ob) :
    ob.isSome = true := by
  cases configs with
  | nil => exact absurd h (by simp [blockFirstConfig])
  | cons x t =>
    cases x with
    | nilIface => simp [elemIsVal] at hwf
    | nilMap => simp [elemIsVal] at hwf
    | val m =>
      simp [blockFirstConfig] at h
      subst h
      rfl

/-- The Create-side block handling never crashes: the GetOk guard admits
only non-empty lists to the first-element access. -/
theorem createEmailStep_ne_crash (configs : List (Elem EmailConfigMap)) :
    outcomeIsCrash (createEmailStep configs) = false := by
  cases configs with
  | nil => rfl
  | cons e t =>
    rw [createEmailStep, if_neg (by simp)]
    exact blockFirstConfig_cons_ne_crash _ _ e t

/-- The Create-side sms block handling never crashes. -/
theorem createSmsStep_ne_crash (configs : List (Elem SmsConfigMap)) :
    outcomeIsCrash (createSmsStep configs) = false := by
  cases configs with
  | nil => rfl
  | cons e t =>
    rw [createSmsStep, if_neg (by simp)]
    exact blockFirstConfig_cons_ne_crash _ _ e t

/-- An error of the Create-side email block handling carries the email
message. -/
theorem createEmailStep_err_shape (configs : List (Elem EmailConfigMap))
    (e : GoError) (h : createEmailStep configs = Outcome.err e) :
    e = GoError.goErr "email_configuration is <nil>" := by
  rw [createEmailStep] at h
  split at h
  · exact absurd h (by simp)
  · exact blockFirstConfig_err_shape _ _ _ _ h

/-- An error of the Create-side sms block handling carries the sms
message. -/
theorem createSmsStep_err_shape (configs : List (Elem SmsConfigMap))
    (e : GoError) (h : createSmsStep configs = Outcome.err e) :
    e = GoError.goErr "sms_configuration is <nil>" := by
  rw [createSmsStep] at h
  split at h
  · exact absurd h (by simp)
  · exact blockFirstConfig_err_shape _ _ _ _ h

/-- A build failure by errors.New makes Create report the configuration
shape error and dispatch no request. -/
theorem createShapeErrNoCalls (d : ResourceConfig) (m : String)
    (hB : buildCreateParams d = Outcome.err (GoError.goErr m)) :
    isCfgShapeErr (buildCreateParams d) = true ∧ userPoolCreateCalls d = [] := by
  constructor
  · rw [hB]; rfl
  · unfold userPoolCreateCalls; rw [hB]

/-- A build failure by errors.New makes Update report the configuration
shape error and dispatch no request. -/
theorem updateShapeErrNoCalls (poolId : String) (d p : ResourceConfig)
    (m : String)
    (hB : buildUpdateParams poolId d p = Outcome.err (GoError.goErr m)) :
    isCfgShapeErr (buildUpdateParams poolId d p) = true
      ∧ userPoolUpdateCalls poolId d p = [] := by
  constructor
  · rw [hB]; rfl
  · unfold userPoolUpdateCalls; rw [hB]

/-- Presence of a conditionally included request field is equivalent to the
falsity of its guard. -/
theorem isSome_diff {α : Type} {c : Prop} [Decidable c] (x : α) :
    (if c then none else some x).isSome = true ↔ ¬ c := by
  by_cases hc : c <;> simp [hc]

/-- C1: for every identifier (tracked in the local state) and every
not-found failure of DescribeUserPool (an AWS error with code
ResourceNotFoundException, any message), Read returns no error and signals
absence by clearing the stored identifier. -/
theorem read_resourceNotFound_signals_absent (s : LocalState) (msg : String) :
    resourceAwsCognitoUserPoolRead s
        (fun _ => Except.error
          (GoError.awsErr "ResourceNotFoundException" msg))
      = Except.ok { s with id := "" } := by
  rfl

/-- C5: Update invoked with a desired configuration equal to the previous
one builds a request whose only content is the target identifier; every
payload field is absent. -/
theorem update_identical_config_identifier_only (poolId : String)
    (d : ResourceConfig) :
    buildUpdateParams poolId d d = Outcome.ok { UserPoolId := poolId } := by
  simp [buildUpdateParams, updateEmailStep, updateSmsStep, assembleUpdate]

/-- C6: the update request built by Update is unchanged under any
replacement of the alias attributes of the desired and of the previous
configuration: Update never reads them, and the UpdateUserPoolInput record
it populates carries no alias-attribute field, so the remote alias
attributes are left untouched even when they differ between the two
configurations. -/
theorem update_ignores_alias_attributes (poolId : String)
    (d p : ResourceConfig) (a b : List String) :
    buildUpdateParams poolId { d with alias_attributes := a }
        { p with alias_attributes := b }
      = buildUpdateParams poolId d p := by
  rfl

/-- C7: a configuration that omits mfa_configuration resolves it to the off
mode by the schema default, and the CreateUserPool request built from such
a configuration carries MfaConfiguration = off. -/
theorem create_mfa_defaults_off (d : ResourceConfig)
    (q : CreateUserPoolInput)
    (hmfa : d.mfa_configuration = resolveMfaDefault none)
    (hok : buildCreateParams d = Outcome.ok q) :
    d.mfa_configuration = UserPoolMfaTypeOff
      ∧ q.MfaConfiguration = some UserPoolMfaTypeOff := by
  have hoff : d.mfa_configuration = UserPoolMfaTypeOff := hmfa
  refine ⟨hoff, ?_⟩
  unfold buildCreateParams at hok
  rcases hE : createEmailStep d.email_configuration with ec | e | _ <;>
    rw [hE] at hok <;> try simp at hok
  rcases hS : createSmsStep d.sms_configuration with sc | e | _ <;>
    rw [hS] at hok <;> try simp at hok
  subst hok
  show (if d.mfa_configuration = "" then none
        else some d.mfa_configuration) = some UserPoolMfaTypeOff
  rw [hoff, if_neg (by decide)]

/-- C7 witness: the concrete configuration c7cfg omits mfa_configuration
(its value is the resolved default) and Create builds the request c7req
carrying MfaConfiguration = off. -/
theorem create_mfa_defaults_off_witness :
    c7cfg.mfa_configuration = resolveMfaDefault none
    ∧ buildCreateParams c7cfg = Outcome.ok c7req
    ∧ (c7cfg.mfa_configuration = UserPoolMfaTypeOff
       ∧ c7req.MfaConfiguration = some UserPoolMfaTypeOff) :=
  ⟨rfl, rfl, create_mfa_defaults_off c7cfg c7req rfl rfl⟩

/-- C8: every DescribeUserPool failure other than the not-found class is
returned by Read exactly as received, with no wrapping, whereas Create,
Update and Delete wrap their remote failures with their human-readable
message. -/
theorem read_unwrapped_cud_wrapped (s : LocalState) (e : GoError)
    (poolId : String) (hnf : isNotFoundErr e = false) :
    resourceAwsCognitoUserPoolRead s (fun _ => Except.error e)
        = Except.error e
    ∧ createHandleRemote (Except.error e)
        = Outcome.err (GoError.wrapped "Error creating Cognito User Pool: " e)
    ∧ updateHandleRemote (Except.error e)
        = Outcome.err (GoError.wrapped "Error updating Cognito User pool: " e)
    ∧ resourceAwsCognitoUserPoolDelete poolId (fun _ => Except.error e)
        = Outcome.err (GoError.wrapped "Error deleting user pool: " e) := by
  refine ⟨?_, rfl, rfl, rfl⟩
  simp [resourceAwsCognitoUserPoolRead, hnf]

/-- C8 witness: a concrete plain remote error is not of the not-found
class; Read returns it unmodified and Create, Update, Delete wrap it. -/
theorem read_unwrapped_cud_wrapped_witness :
    isNotFoundErr (GoError.goErr "boom") = false
    ∧ (resourceAwsCognitoUserPoolRead c8state
          (fun _ => Except.error (GoError.goErr "boom"))
        = Except.error (GoError.goErr "boom")
      ∧ createHandleRemote (Except.error (GoError.goErr "boom"))
        = Outcome.err (GoError.wrapped "Error creating Cognito User Pool: "
            (GoError.goErr "boom"))
      ∧ updateHandleRemote (Except.error (GoError.goErr "boom"))
        = Outcome.err (GoError.wrapped "Error updating Cognito User pool: "
            (GoError.goErr "boom"))
      ∧ resourceAwsCognitoUserPoolDelete "p1"
          (fun _ => Except.error (GoError.goErr "boom"))
        = Outcome.err (GoError.wrapped "Error deleting user pool: "
            (GoError.goErr "boom"))) :=
  ⟨rfl, read_unwrapped_cud_wrapped c8state (GoError.goErr "boom") "p1" rfl⟩

/-- C10: the first-element access of the block lists is in bounds for every
configuration reaching it in Create (the GetOk guard admits only non-empty
lists, so Create never crashes), while in Update the HasChange guard admits
the concrete pair (c10desired, c10previous), whose desired email block list
is empty yet differs from the previous one, and the access crashes. -/
theorem block_first_element_access_bounds :
    (∀ d : ResourceConfig, outcomeIsCrash (buildCreateParams d) = false)
    ∧ c10desired.email_configuration = []
    ∧ c10previous.email_configuration = [Elem.val {}]
    ∧ buildUpdateParams "p1" c10desired c10previous = Outcome.crash := by
  refine ⟨?_, rfl, rfl, rfl⟩
  intro d
  unfold buildCreateParams
  rcases hE : createEmailStep d.email_configuration with ec | e | _
  · rcases hS : createSmsStep d.sms_configuration with sc | e | _
    · rfl
    · rfl
    · have h := createSmsStep_ne_crash d.sms_configuration
      rw [hS] at h
      exact absurd h (by simp [outcomeIsCrash])
  · rfl
  · have h := createEmailStep_ne_crash d.email_configuration
    rw [hE] at h
    exact absurd h (by simp [outcomeIsCrash])

/-- C3: for every pair of a well-formed desired configuration and a
previous configuration for which Update builds a request, that request
carries exactly the target identifier plus the payload fields whose
desired value differs from the previous value; every unchanged payload
field is absent. -/
theorem update_request_contains_exactly_changed_fields (poolId : String)
    (d p : ResourceConfig) (u : UpdateUserPoolInput)
    (hwf : wellFormedConfig d = true)
    (hok : buildUpdateParams poolId d p = Outcome.ok u) :
    updateDiffSpec poolId d p u := by
  simp only [wellFormedConfig, Bool.and_eq_true] at hwf
  obtain ⟨hwfe, hwfs⟩ := hwf
  unfold buildUpdateParams at hok
  rcases hE : updateEmailStep d p with ec | e | _ <;>
    rw [hE] at hok <;> try simp at hok
  rcases hS : updateSmsStep d p with sc | e | _ <;>
    rw [hS] at hok <;> try simp at hok
  subst hok
  have hecs : ec.isSome = true ↔ d.email_configuration ≠ p.email_configuration := by
    unfold updateEmailStep at hE
    by_cases hc : d.email_configuration = p.email_configuration
    · rw [if_pos hc] at hE
      simp only [Outcome.ok.injEq] at hE
      subst hE
      simp [hc]
    · rw [if_neg hc] at hE
      have hs := blockFirstConfig_ok_of_wf expandEmailConfig
        "email_configuration is <nil>" d.email_configuration ec hwfe hE
      simp [hs, hc]
  have hscs : sc.isSome = true ↔ d.sms_configuration ≠ p.sms_configuration := by
    unfold updateSmsStep at hS
    by_cases hc : d.sms_configuration = p.sms_configuration
    · rw [if_pos hc] at hS
      simp only [Outcome.ok.injEq] at hS
      subst hS
      simp [hc]
    · rw [if_neg hc] at hS
      have hs := blockFirstConfig_ok_of_wf expandSmsConfig
        "sms_configuration is <nil>" d.sms_configuration sc hwfs hS
      simp [hs, hc]
  exact ⟨rfl, isSome_diff _, hecs, isSome_diff _, isSome_diff _,
    isSome_diff _, isSome_diff _, hscs, isSome_diff _, isSome_diff _⟩

/-- C3 witness: the concrete pair (c3desired, c3previous) is well formed,
Update builds the request c3request from it, and that request carries
exactly the identifier plus the changed fields. -/
theorem update_request_contains_exactly_changed_fields_witness :
    wellFormedConfig c3desired = true
    ∧ buildUpdateParams "p1" c3desired c3previous = Outcome.ok c3request
    ∧ updateDiffSpec "p1" c3desired c3previous c3request :=
  ⟨rfl, rfl,
    update_request_contains_exactly_changed_fields "p1" c3desired c3previous
      c3request rfl rfl⟩

/-- C4: for every DescribeUserPool response, Read writes each of the seven
guarded optional scalar fields from the response value when one is carried
and keeps the previously known local value otherwise; a response lacking a
value never overwrites a known value with a placeholder. -/
theorem read_optional_scalars_guarded (s : LocalState) (up : UserPool)
    (t : LocalState)
    (h : resourceAwsCognitoUserPoolRead s (fun _ => Except.ok up)
          = Except.ok t) :
    t.alias_attributes
        = (up.AliasAttributes.map flattenStringList).getD s.alias_attributes
    ∧ t.auto_verified_attributes
        = (up.AutoVerifiedAttributes.map flattenStringList).getD
            s.auto_verified_attributes
    ∧ t.email_verification_subject
        = up.EmailVerificationSubject.getD s.email_verification_subject
    ∧ t.email_verification_message
        = up.EmailVerificationMessage.getD s.email_verification_message
    ∧ t.mfa_configuration = up.MfaConfiguration.getD s.mfa_configuration
    ∧ t.sms_verification_message
        = up.SmsVerificationMessage.getD s.sms_verification_message
    ∧ t.sms_authentication_message
        = up.SmsAuthenticationMessage.getD s.sms_authentication_message := by
  rw [read_ok_eq] at h
  simp only [Except.ok.injEq] at h
  subst h
  exact ⟨rfl, rfl, rfl, rfl, rfl, rfl, rfl⟩

/-- C4 witness: reading the concrete response c4resp over the concrete
state c4state yields c4out, which takes the carried verification subject
and keeps the previously known mfa mode. -/
theorem read_optional_scalars_guarded_witness :
    (resourceAwsCognitoUserPoolRead c4state (fun _ => Except.ok c4resp)
        = Except.ok c4out)
    ∧ (c4out.alias_attributes
        = (c4resp.AliasAttributes.map flattenStringList).getD
            c4state.alias_attributes
      ∧ c4out.auto_verified_attributes
        = (c4resp.AutoVerifiedAttributes.map flattenStringList).getD
            c4state.auto_verified_attributes
      ∧ c4out.email_verification_subject
        = c4resp.EmailVerificationSubject.getD
            c4state.email_verification_subject
      ∧ c4out.email_verification_message
        = c4resp.EmailVerificationMessage.getD
            c4state.email_verification_message
      ∧ c4out.mfa_configuration
        = c4resp.MfaConfiguration.getD c4state.mfa_configuration
      ∧ c4out.sms_verification_message
        = c4resp.SmsVerificationMessage.getD
            c4state.sms_verification_message
      ∧ c4out.sms_authentication_message
        = c4resp.SmsAuthenticationMessage.getD
            c4state.sms_authentication_message) :=
  ⟨rfl, read_optional_scalars_guarded c4state c4resp c4out rfl⟩

/-- C9: Read writes email_configuration, sms_configuration and tags into
the local state unconditionally: the written values depend only on the
response, not on the previous local state, and a response carrying no block
clears the previously known local block. -/
theorem read_blocks_written_unconditionally (s1 s2 : LocalState)
    (up : UserPool) (t1 t2 : LocalState)
    (h1 : resourceAwsCognitoUserPoolRead s1 (fun _ => Except.ok up)
          = Except.ok t1)
    (h2 : resourceAwsCognitoUserPoolRead s2 (fun _ => Except.ok up)
          = Except.ok t2) :
    (t1.email_configuration = t2.email_configuration
     ∧ t1.sms_configuration = t2.sms_configuration
     ∧ t1.tags = t2.tags)
    ∧ (up.EmailConfiguration = none → t1.email_configuration = [])
    ∧ (up.SmsConfiguration = none → t1.sms_configuration = []) := by
  rw [read_ok_eq] at h1 h2
  simp only [Except.ok.injEq] at h1 h2
  subst h1
  subst h2
  refine ⟨⟨rfl, rfl, rfl⟩, ?_, ?_⟩
  · intro he
    simp [specReadMerge, he, flattenCognitoUserPoolEmailConfiguration]
  · intro hs
    simp [specReadMerge, hs, flattenCognitoUserPoolSmsConfiguration]

/-- C9 witness: reading the concrete blockless response c9resp over the
concrete states c9s1 (which holds an email block and tags) and c9s2 yields
c9t1 and c9t2, whose blocks and tags agree and are cleared. -/
theorem read_blocks_written_unconditionally_witness :
    (resourceAwsCognitoUserPoolRead c9s1 (fun _ => Except.ok c9resp)
        = Except.ok c9t1)
    ∧ (resourceAwsCognitoUserPoolRead c9s2 (fun _ => Except.ok c9resp)
        = Except.ok c9t2)
    ∧ ((c9t1.email_configuration = c9t2.email_configuration
        ∧ c9t1.sms_configuration = c9t2.sms_configuration
        ∧ c9t1.tags = c9t2.tags)
      ∧ (c9resp.EmailConfiguration = none → c9t1.email_configuration = [])
      ∧ (c9resp.SmsConfiguration = none → c9t1.sms_configuration = [])) :=
  ⟨rfl, rfl,
    read_blocks_written_unconditionally c9s1 c9s2 c9resp c9t1 c9t2 rfl rfl⟩

/-- C2 counterexample: for the concrete configuration c2cfg, whose
email_configuration block is present with a nil first element, Update
invoked with that configuration as both desired and previous does not fail:
it dispatches an UpdateUserPool request (carrying only the identifier), so
the claim that every such configuration makes Update fail with a
configuration shape error before any remote call is false. -/
theorem update_unchanged_nil_block_dispatches :
    c2cfg.email_configuration.head? = some Elem.nilIface
    ∧ userPoolUpdateCalls "p1" c2cfg c2cfg = [{ UserPoolId := "p1" }]
    ∧ isCfgShapeErr (buildUpdateParams "p1" c2cfg c2cfg) = false :=
  ⟨rfl, rfl, rfl⟩

/-- C2 amended: a present block whose first element is nil makes Create
fail with the configuration shape error and dispatch no CreateUserPool
request; Update does so when that block moreover differs from the previous
configuration (the email block being examined first, a failing sms block
is reached only when the email step succeeds); an unchanged malformed
block is not examined by Update. -/
theorem nil_block_cfg_shape_guard (poolId : String) (d p : ResourceConfig) :
    ((d.email_configuration.head? = some Elem.nilIface
        ∨ d.sms_configuration.head? = some Elem.nilIface) →
      isCfgShapeErr (buildCreateParams d) = true
        ∧ userPoolCreateCalls d = [])
    ∧ ((d.email_configuration.head? = some Elem.nilIface
        ∧ d.email_configuration ≠ p.email_configuration) →
      isCfgShapeErr (buildUpdateParams poolId d p) = true
        ∧ userPoolUpdateCalls poolId d p = [])
    ∧ ((d.sms_configuration.head? = some Elem.nilIface
        ∧ d.sms_configuration ≠ p.sms_configuration
        ∧ outcomeIsOk (updateEmailStep d p) = true) →
      isCfgShapeErr (buildUpdateParams poolId d p) = true
        ∧ userPoolUpdateCalls poolId d p = []) := by
  refine ⟨?_, ?_, ?_⟩
  · intro h
    rcases h with h | h
    · have hne : d.email_configuration ≠ [] := by
        intro hnil
        rw [hnil] at h
        simp at h
      have hE : createEmailStep d.email_configuration
          = Outcome.err (GoError.goErr "email_configuration is <nil>") := by
        rw [createEmailStep, if_neg hne]
        exact blockFirstConfig_nilIface _ _ _ h
      refine createShapeErrNoCalls d "email_configuration is <nil>" ?_
      unfold buildCreateParams
      rw [hE]
    · rcases hE : createEmailStep d.email_configuration with ec | e | _
      · have hne : d.sms_configuration ≠ [] := by
          intro hnil
          rw [hnil] at h
          simp at h
        have hS : createSmsStep d.sms_configuration
            = Outcome.err (GoError.goErr "sms_configuration is <nil>") := by
          rw [createSmsStep, if_neg hne]
          exact blockFirstConfig_nilIface _ _ _ h
        refine createShapeErrNoCalls d "sms_configuration is <nil>" ?_
        unfold buildCreateParams
        rw [hE, hS]
      · have he := createEmailStep_err_shape d.email_configuration e hE
        subst he
        refine createShapeErrNoCalls d "email_configuration is <nil>" ?_
        unfold buildCreateParams
        rw [hE]
      · have hc := createEmailStep_ne_crash d.email_configuration
        rw [hE] at hc
        exact absurd hc (by simp [outcomeIsCrash])
  · rintro ⟨hh, hch⟩
    have hE : updateEmailStep d p
        = Outcome.err (GoError.goErr "email_configuration is <nil>") := by
      rw [updateEmailStep, if_neg hch]
      exact blockFirstConfig_nilIface _ _ _ hh
    refine updateShapeErrNoCalls poolId d p "email_configuration is <nil>" ?_
    unfold buildUpdateParams
    rw [hE]
  · rintro ⟨hh, hch, hEok⟩
    rcases hE : updateEmailStep d p with ec | e | _ <;>
      rw [hE] at hEok <;> try simp [outcomeIsOk] at hEok
    have hS : updateSmsStep d p
        = Outcome.err (GoError.goErr "sms_configuration is <nil>") := by
      rw [updateSmsStep, if_neg hch]
      exact blockFirstConfig_nilIface _ _ _ hh
    refine updateShapeErrNoCalls poolId d p "sms_configuration is <nil>" ?_
    unfold buildUpdateParams
    rw [hE, hS]

/-- C2 amended witness: the concrete configuration c2cfg, whose email block
is present with a nil first element, makes Create fail with the
configuration shape error and dispatch nothing, and makes Update against
the blockless previous configuration c2prev do the same. -/
theorem nil_block_cfg_shape_guard_witness :
    (isCfgShapeErr (buildCreateParams c2cfg) = true
     ∧ userPoolCreateCalls c2cfg = [])
    ∧ (isCfgShapeErr (buildUpdateParams "p1" c2cfg c2prev) = true
     ∧ userPoolUpdateCalls "p1" c2cfg c2prev = []) :=
  ⟨(nil_block_cfg_shape_guard "p1" c2cfg c2prev).1 (Or.inl rfl),
   (nil_block_cfg_shape_guard "p1" c2cfg c2prev).2.1 ⟨rfl, by decide⟩⟩

end Cognito
